import Mathlib

/-!
Verification of the weight-tracking core of `src/웹코드.py`: the quick and
stable weight samplers, the 5-second sample cache, the product record
lifecycle operations and the alert evaluation.

The sensor byte stream is embedded as a list of read attempts: `none` models
an attempt whose read or float-parse raised (caught by the source's
`try/except`), `some w` an attempt that parsed to the value `w`. Python
floats are embedded as exact rationals, and `round(x, 2)` as rounding the
rational to 2 decimal places. Serial availability (`ser is None`) is a
boolean. Wall-clock times are rationals.
-/

namespace WeightOfBeauty

/-- Embeds Python `round(x, 2)`: rounding to 2 decimal places. -/
def round2 (q : ℚ) : ℚ := (round (q * 100) : ℤ) / 100

/-- One read attempt on the serial line: `none` when `ser.readline`/`float`
raised inside the `try`, `some w` when the line parsed to `w`. -/
abbrev ReadAttempt := Option ℚ

/-- Embeds the sampling loop of `get_stable_weight` (src/웹코드.py lines
56-64): each attempt flushes, reads and parses one line; a parsed value is
appended to `values` only when `10 < weight < 3000`; failures are dropped. -/
def stableLoop : List ReadAttempt → List ℚ → List ℚ
  | [], values => values
  | attempt :: rest, values =>
    match attempt with
    | none => stableLoop rest values
    | some weight =>
      if 10 < weight ∧ weight < 3000 then stableLoop rest (values ++ [weight])
      else stableLoop rest values

/-- Embeds `get_stable_weight` (src/웹코드.py lines 52-68): `0.0` when the
serial port is absent, otherwise run the sampling loop; `0.0` when no value
was accepted, otherwise the mean of the accepted values rounded to 2
decimal places. -/
def get_stable_weight (ser : Bool) (reads : List ReadAttempt) : ℚ :=
  if ser = false then 0
  else
    let values := stableLoop reads []
    if values = [] then 0
    else round2 (values.sum / values.length)

/-- Embeds the loop of `get_quick_weight` (src/웹코드.py lines 40-48): read
and parse one line per attempt; return the first parsed value that is
strictly positive, rounded to 2 decimal places; `0.0` when the attempts run
out (the timeout elapsing). -/
def quickLoop : List ReadAttempt → ℚ
  | [] => 0
  | attempt :: rest =>
    match attempt with
    | none => quickLoop rest
    | some weight => if weight > 0 then round2 weight else quickLoop rest

/-- Embeds `get_quick_weight` (src/웹코드.py lines 36-49): `0.0` when the
serial port is absent, otherwise the quick sampling loop over the attempts
that fit in the timeout. -/
def get_quick_weight (ser : Bool) (reads : List ReadAttempt) : ℚ :=
  if ser = false then 0 else quickLoop reads

/-- The accepted working set of a stable-sampling run: the parsed values
strictly inside the noise band `(10, 3000)`, in order. -/
def bandAccepted (reads : List ReadAttempt) : List ℚ :=
  reads.filterMap fun attempt => attempt.bind fun weight =>
    if 10 < weight ∧ weight < 3000 then some weight else none

/-- The value `get_quick_weight` accepts: the first parsed, strictly
positive value among the attempts, when there is one. -/
def quickAccepted (reads : List ReadAttempt) : Option ℚ :=
  reads.findSome? fun attempt => attempt.bind fun weight =>
    if weight > 0 then some weight else none

/-- The persisted product record (the dict built at src/웹코드.py lines
96-100): name, initial weight from the quick sample, threshold percent. -/
structure ProductRecord where
  name : String
  initial_weight : ℚ
  threshold_percent : ℤ
  deriving DecidableEq, Repr

/-- Embeds the alert computation shared by `index` (src/웹코드.py lines
113-117) and `current` (lines 137-139): with no record the alert is off and
the threshold weight `0.0`; with a record the threshold weight is
`initial_weight * (threshold_percent / 100)` and the alert holds iff the
current weight is strictly below it. -/
def evaluate (product : Option ProductRecord) (current_weight : ℚ) : Bool × ℚ :=
  match product with
  | none => (false, 0)
  | some p =>
    let threshold_weight := p.initial_weight * ((p.threshold_percent : ℚ) / 100)
    (decide (current_weight < threshold_weight), threshold_weight)

/-- Embeds the response fields of the `current` route (src/웹코드.py lines
133-148): weight, threshold, alert and name, with the defaults `0`, `False`
and `''` when no product is registered. -/
def currentStatus (product : Option ProductRecord) (current_weight : ℚ) :
    ℚ × ℚ × Bool × String :=
  match product with
  | none => (current_weight, 0, false, "")
  | some p =>
    let threshold := p.initial_weight * ((p.threshold_percent : ℚ) / 100)
    (current_weight, threshold, decide (current_weight < threshold), p.name)

/-- The module-level cache (src/웹코드.py lines 17-18): the last stable
weight and the time it was taken. -/
structure CacheState where
  last_weight : ℚ
  last_checked_time : ℚ
  deriving DecidableEq, Repr

/-- The initial cache (src/웹코드.py lines 17-18): `last_weight = 0.0`,
`last_checked_time = 0`. -/
def initialCache : CacheState := { last_weight := 0, last_checked_time := 0 }

/-- The outcome of one cache query: the updated cache, the returned weight,
and whether `get_stable_weight` was invoked. -/
structure CacheResult where
  state : CacheState
  value : ℚ
  sampled : Bool
  deriving DecidableEq, Repr

/-- Embeds the rate-limited refresh run by both routes (src/웹코드.py lines
106-111 and 128-133): when `now - last_checked_time > 5` take a fresh
stable sample and store it with `now`, otherwise keep the cache; the
returned weight is the (possibly refreshed) `last_weight`. -/
def cacheQuery (st : CacheState) (now : ℚ) (ser : Bool) (reads : List ReadAttempt) :
    CacheResult :=
  if now - st.last_checked_time > 5 then
    let w := get_stable_weight ser reads
    { state := { last_weight := w, last_checked_time := now }, value := w, sampled := true }
  else
    { state := st, value := st.last_weight, sampled := false }

/-- Embeds the threshold-update branch of `index` (src/웹코드.py lines
83-89) on the persisted store: when a record is loaded, rewrite its
`threshold_percent` and save; when none is, do nothing. -/
def update_threshold (store : Option ProductRecord) (threshold : ℤ) :
    Option ProductRecord :=
  match store with
  | none => none
  | some p => some { p with threshold_percent := threshold }

/-- Embeds the registration branch of `index` (src/웹코드.py lines 91-101):
build and persist a record from the form's name and threshold and one quick
weight sample. -/
def register (name : String) (threshold : ℤ) (ser : Bool)
    (reads : List ReadAttempt) : ProductRecord :=
  { name := name, initial_weight := get_quick_weight ser reads,
    threshold_percent := threshold }

/-- A JSON value, for the persisted file's content. -/
inductive Json where
  | null : Json
  | bool : Bool → Json
  | num : ℚ → Json
  | str : String → Json
  | arr : List Json → Json
  | obj : List (String × Json) → Json

/-- First value bound to `key` in a JSON object's field list. -/
def jsonLookup (fields : List (String × Json)) (key : String) : Option Json :=
  match fields with
  | [] => none
  | (k, v) :: rest => if k = key then some v else jsonLookup rest key

/-- Embeds `load_product` (src/웹코드.py lines 21-28). The stored file is
`none` when absent, `some none` when present but `json.load` raises
`JSONDecodeError`, and `some (some j)` when it decodes to the JSON value
`j`. The decoded value is returned verbatim: JSON `null` decodes to
Python `None`, so that return is the `none` result, indistinguishable from
the absent case; every other decoded value is handed back as loaded,
whatever its shape. -/
def load_product (file : Option (Option Json)) : Option Json :=
  match file with
  | none => none
  | some none => none
  | some (some Json.null) => none
  | some (some j) => some j

/-- A well-formed stored record in the sense of the data model: a JSON
object whose `name` is a non-empty string, whose `initial_weight` is a
number `> 0` and whose `threshold_percent` is an integer in `[0, 100]`.
This definition follows the data model's words, to be compared with what
`load_product` actually returns. -/
def specWellFormedRecord (j : Json) : Bool :=
  match j with
  | Json.obj fields =>
    (match jsonLookup fields "name" with
     | some (Json.str s) => decide (s ≠ "")
     | _ => false)
    && (match jsonLookup fields "initial_weight" with
        | some (Json.num q) => decide (0 < q)
        | _ => false)
    && (match jsonLookup fields "threshold_percent" with
        | some (Json.num q) => decide (q.den = 1 ∧ 0 ≤ q ∧ q ≤ 100)
        | _ => false)
  | _ => false

/-- The data-model constraint on an in-memory record: non-empty name,
positive initial weight, threshold percent in `[0, 100]`. -/
def recordWellFormed (r : ProductRecord) : Prop :=
  r.name ≠ "" ∧ 0 < r.initial_weight ∧ 0 ≤ r.threshold_percent ∧ r.threshold_percent ≤ 100

instance (r : ProductRecord) : Decidable (recordWellFormed r) := by
  unfold recordWellFormed; infer_instance

/-- The stable-sampling loop appends exactly the in-band parsed values to
the accumulator it is given. -/
theorem stableLoop_eq_bandAccepted (reads : List ReadAttempt) (values : List ℚ) :
    stableLoop reads values = values ++ bandAccepted reads := by
  induction reads generalizing values with
  | nil => simp [stableLoop, bandAccepted]
  | cons attempt rest ih =>
    cases attempt with
    | none => simp [stableLoop, bandAccepted, List.filterMap_cons, Option.bind, ih]
    | some weight =>
      by_cases hband : 10 < weight ∧ weight < 3000
      · simp [stableLoop, hband, bandAccepted, List.filterMap_cons, ih]
      · simp [stableLoop, hband, bandAccepted, List.filterMap_cons, ih]

/-- The quick-sampling loop returns the first accepted value rounded, `0`
when none is accepted. -/
theorem quickLoop_eq_quickAccepted (reads : List ReadAttempt) :
    quickLoop reads =
      (match quickAccepted reads with
       | none => 0
       | some w => round2 w) := by
  induction reads with
  | nil => simp [quickLoop, quickAccepted]
  | cons attempt rest ih =>
    cases attempt with
    | none => simpa [quickLoop, quickAccepted, List.findSome?] using ih
    | some weight =>
      by_cases hpos : weight > 0
      · simp [quickLoop, hpos, quickAccepted, List.findSome?]
      · simpa [quickLoop, hpos, quickAccepted, List.findSome?] using ih

/-- C1: a run of `get_stable_weight` returns `0.0` when the serial source
is unavailable; otherwise, after its attempts, it returns `0.0` when the
accepted set is empty and the arithmetic mean of the accepted values
rounded to 2 decimal places when it is not. -/
theorem get_stable_weight_spec (ser : Bool) (reads : List ReadAttempt) :
    (ser = false → get_stable_weight ser reads = 0) ∧
    (ser = true → bandAccepted reads = [] → get_stable_weight ser reads = 0) ∧
    (ser = true → bandAccepted reads ≠ [] →
      get_stable_weight ser reads =
        round2 ((bandAccepted reads).sum / (bandAccepted reads).length)) := by
  refine ⟨fun h => by simp [get_stable_weight, h],
    fun hser hempty => ?_, fun hser hne => ?_⟩
  · simp [get_stable_weight, hser, stableLoop_eq_bandAccepted, hempty]
  · simp [get_stable_weight, hser, stableLoop_eq_bandAccepted, hne]

/-- Witness for C1: an absent port, a run whose only reading is noise, and
a run accepting `100` and `200` grams (mean `150`). -/
theorem get_stable_weight_spec_witness :
    get_stable_weight false [some 100] = 0 ∧
    get_stable_weight true [some 5, none] = 0 ∧
    get_stable_weight true [some 100, none, some 200] = 150 := by
  refine ⟨(get_stable_weight_spec false [some 100]).1 rfl, ?_, ?_⟩
  · exact (get_stable_weight_spec true [some 5, none]).2.1 rfl (by decide)
  · have hacc : bandAccepted [some 100, none, some 200] = [100, 200] := by decide
    have h := (get_stable_weight_spec true [some 100, none, some 200]).2.2 rfl
      (by rw [hacc]; simp)
    rw [h, hacc]
    norm_num [round2, round_eq, List.sum_cons, List.sum_nil]

/-- C2: with a record present the alert decision is
`alert = current < initial_weight * threshold_percent / 100` together with
that threshold weight, the inequality strict: at
`{initial_weight := 100, threshold_percent := 30}` a current weight of
`29.9` yields `(true, 30)` and exactly `30` yields `(false, 30)`. -/
theorem evaluate_strict_boundary :
    (∀ (p : ProductRecord) (w : ℚ),
      evaluate (some p) w =
        (decide (w < p.initial_weight * ((p.threshold_percent : ℚ) / 100)),
         p.initial_weight * ((p.threshold_percent : ℚ) / 100))) ∧
    evaluate (some { name := "cream", initial_weight := 100, threshold_percent := 30 })
        (299 / 10) = (true, 30) ∧
    evaluate (some { name := "cream", initial_weight := 100, threshold_percent := 30 })
        30 = (false, 30) := by
  refine ⟨fun p w => rfl, ?_, ?_⟩
  · simp only [evaluate, Prod.mk.injEq, decide_eq_true_eq]
    norm_num
  · simp only [evaluate, Prod.mk.injEq, decide_eq_false_iff_not]
    norm_num

/-- C4: a parsed reading is accepted into the working set iff it lies
strictly inside the open interval `(10, 3000)`; on a run reading exactly
`10`, exactly `3000`, `10.01` and `2999.99`, only the last two are
accepted. -/
theorem stable_band_boundary :
    (∀ (weight : ℚ) (reads : List ReadAttempt),
      weight ∈ stableLoop reads [] ↔
        some weight ∈ reads ∧ 10 < weight ∧ weight < 3000) ∧
    stableLoop [some 10, some 3000, some (1001 / 100), some (299999 / 100)] [] =
      [1001 / 100, 299999 / 100] := by
  constructor
  · intro weight reads
    simp only [stableLoop_eq_bandAccepted, List.nil_append, bandAccepted,
      List.mem_filterMap, Option.bind_eq_some, Option.ite_none_right_eq_some,
      Option.some.injEq]
    constructor
    · rintro ⟨attempt, hmem, w, rfl, hband, rfl⟩
      exact ⟨hmem, hband⟩
    · rintro ⟨hmem, hband⟩
      exact ⟨some weight, hmem, weight, rfl, hband, rfl⟩
  · rw [stableLoop_eq_bandAccepted, List.nil_append]
    norm_num [bandAccepted, List.filterMap_cons]

/-- C6: with no product record, both the alert evaluation and the `current`
route's response report no alert and a `0.0` threshold (and an empty
name). -/
theorem no_record_defaults (w : ℚ) :
    evaluate none w = (false, 0) ∧ currentStatus none w = (w, 0, false, "") :=
  ⟨rfl, rfl⟩

/-- C7: with a record present, a threshold update rewrites only
`threshold_percent`, keeping `name` and `initial_weight`; with no record it
is a silent no-op leaving the store unchanged. -/
theorem update_threshold_frame (p : ProductRecord) (t : ℤ) :
    update_threshold (some p) t =
      some { name := p.name, initial_weight := p.initial_weight,
             threshold_percent := t } ∧
    update_threshold none t = none :=
  ⟨rfl, rfl⟩

/-- C5: a run of `get_quick_weight` returns `0.0` immediately when the
serial source is unavailable; otherwise it returns, rounded to 2 decimal
places, the first parsed value strictly greater than zero, discarding
parse failures and non-positive values, and returns `0.0` when the timeout
runs the attempts out with none accepted. -/
theorem get_quick_weight_spec (reads : List ReadAttempt) :
    get_quick_weight false reads = 0 ∧
    (quickAccepted reads = none → get_quick_weight true reads = 0) ∧
    (∀ w : ℚ, quickAccepted reads = some w →
      get_quick_weight true reads = round2 w) := by
  refine ⟨rfl, fun h => ?_, fun w h => ?_⟩
  · rw [get_quick_weight]
    simp [quickLoop_eq_quickAccepted, h]
  · rw [get_quick_weight]
    simp [quickLoop_eq_quickAccepted, h]

/-- Witness for C5: an absent port, a run of only failures and non-positive
values, and a run whose first accepted line reads `85.3`. -/
theorem get_quick_weight_spec_witness :
    get_quick_weight false [some 100] = 0 ∧
    get_quick_weight true [none, some 0, some (-3)] = 0 ∧
    get_quick_weight true [none, some 0, some (853 / 10), some 400] = 853 / 10 := by
  refine ⟨(get_quick_weight_spec [some 100]).1, ?_, ?_⟩
  · exact (get_quick_weight_spec [none, some 0, some (-3)]).2.1 (by decide)
  · have hq : quickAccepted [none, some 0, some (853 / 10), some 400] =
        some (853 / 10) := by
      norm_num [quickAccepted, List.findSome?_cons]
    have h := (get_quick_weight_spec [none, some 0, some (853 / 10), some 400]).2.2
      (853 / 10) hq
    rw [h]
    norm_num [round2, round_eq]

/-- A run reading the single line `100` yields the stable weight `100`. -/
theorem get_stable_weight_single_100 : get_stable_weight true [some 100] = 100 := by
  norm_num [get_stable_weight, stableLoop, round2, round_eq, List.sum_cons,
    List.sum_nil]

/-- C3 fails as stated: at the initial state no sample has yet been taken,
yet a query at time `3` invokes no sampler and leaves the cache untouched,
because the code refreshes only when `now - last_checked_time > 5`; and
from the state sampled at time `10` with value `50`, queries at times `14`
and `16` — 2 seconds apart, the sensor reading `100` — return `50` then
`100`, so two queries within 5 seconds of each other need not return the
identical cached value. -/
theorem cacheQuery_counterexample :
    (cacheQuery initialCache 3 true [some 100]).sampled = false ∧
    (cacheQuery initialCache 3 true [some 100]).state = initialCache ∧
    (cacheQuery initialCache 3 true [some 100]).value = 0 ∧
    (cacheQuery { last_weight := 50, last_checked_time := 10 } 14 true
      [some 100]).value = 50 ∧
    (cacheQuery (cacheQuery { last_weight := 50, last_checked_time := 10 } 14 true
      [some 100]).state 16 true [some 100]).value = 100 := by
  refine ⟨by norm_num [cacheQuery, initialCache], by norm_num [cacheQuery, initialCache],
    by norm_num [cacheQuery, initialCache], by norm_num [cacheQuery], ?_⟩
  norm_num [cacheQuery, get_stable_weight_single_100]

/-- C3 (amended): a query refreshes — invokes `get_stable_weight`, stores
its result with `now`, and returns it — exactly when
`now - last_checked_time > 5` (the initial `last_checked_time` is `0`, so
the first query samples whenever `now > 5`, not unconditionally); otherwise
it returns the cached value with the state unchanged and no hardware read.
Hence of two queries at most 5 seconds apart, at most one samples once the
first has sampled, and whenever the second does not sample the two return
the identical cached value. -/
theorem cacheQuery_spec (st : CacheState) (now : ℚ) (ser : Bool)
    (reads : List ReadAttempt) :
    (now - st.last_checked_time > 5 →
      cacheQuery st now ser reads =
        { state := { last_weight := get_stable_weight ser reads,
                     last_checked_time := now },
          value := get_stable_weight ser reads, sampled := true }) ∧
    (¬ now - st.last_checked_time > 5 →
      cacheQuery st now ser reads =
        { state := st, value := st.last_weight, sampled := false }) ∧
    (∀ (now2 : ℚ) (ser2 : Bool) (reads2 : List ReadAttempt), now2 - now ≤ 5 →
      ((cacheQuery st now ser reads).sampled = true →
        (cacheQuery (cacheQuery st now ser reads).state now2 ser2 reads2).sampled
          = false) ∧
      ((cacheQuery (cacheQuery st now ser reads).state now2 ser2 reads2).sampled
          = false →
        (cacheQuery (cacheQuery st now ser reads).state now2 ser2 reads2).value =
          (cacheQuery st now ser reads).value)) := by
  refine ⟨fun h => by simp [cacheQuery, h], fun h => by simp [cacheQuery, h],
    fun now2 ser2 reads2 hle => ?_⟩
  by_cases h1 : now - st.last_checked_time > 5
  · have h2 : ¬ now2 - now > 5 := by linarith
    exact ⟨fun _ => by simp [cacheQuery, h1, h2], fun _ => by simp [cacheQuery, h1, h2]⟩
  · refine ⟨fun hs => ?_, fun hs => ?_⟩
    · exfalso
      simp [cacheQuery, h1] at hs
    · by_cases h2 : now2 - st.last_checked_time > 5
      · simp [cacheQuery, h1, h2] at hs
      · simp [cacheQuery, h1, h2]

/-- Witness for the amended C3: from the state sampled at time `10` with
value `50`, a query at `16` (gap above 5 seconds) refreshes to the
sensor's `100`, a query at `14` returns the cached `50` untouched, and
after the refresh at `16` a query at `20` does not sample again. -/
theorem cacheQuery_spec_witness :
    cacheQuery { last_weight := 50, last_checked_time := 10 } 16 true [some 100] =
      { state := { last_weight := 100, last_checked_time := 16 }, value := 100,
        sampled := true } ∧
    cacheQuery { last_weight := 50, last_checked_time := 10 } 14 true [some 100] =
      { state := { last_weight := 50, last_checked_time := 10 }, value := 50,
        sampled := false } ∧
    (cacheQuery (cacheQuery { last_weight := 50, last_checked_time := 10 } 16 true
      [some 100]).state 20 true [some 200]).sampled = false := by
  have h := cacheQuery_spec { last_weight := 50, last_checked_time := 10 } 16 true
    [some 100]
  have e1 := h.1 (by norm_num)
  refine ⟨?_, ?_, ?_⟩
  · rw [e1, get_stable_weight_single_100]
  · exact (cacheQuery_spec { last_weight := 50, last_checked_time := 10 } 14 true
      [some 100]).2.1 (by norm_num)
  · refine (h.2.2 20 true [some 200] (by norm_num)).1 ?_
    rw [e1]

/-- C8 fails as stated: a stored file whose content decodes to the JSON
array `[]` is returned as loaded — the result is neither `None` nor a
well-formed record, because the code turns only `JSONDecodeError` into
`None`; a type-malformed record flows on to the caller. -/
theorem load_product_counterexample :
    load_product (some (some (Json.arr []))) = some (Json.arr []) ∧
    specWellFormedRecord (Json.arr []) = false :=
  ⟨rfl, rfl⟩

/-- C8 (amended): `load_product` returns `None` exactly when the stored
file is absent, when its content fails JSON decoding, or when it decodes
to JSON `null` (the decoded Python `None` is returned verbatim); every
other successfully decoded value, well-formed record or not, is returned
unchanged, so a type-malformed record such as an array is not treated like
"no record" and flows to the caller. -/
theorem load_product_spec (file : Option (Option Json)) :
    (load_product file = none ↔
      file = none ∨ file = some none ∨ file = some (some Json.null)) ∧
    (∀ j : Json, file = some (some j) → j ≠ Json.null →
      load_product file = some j) := by
  constructor
  · cases file with
    | none => simp [load_product]
    | some inner =>
      cases inner with
      | none => simp [load_product]
      | some j => cases j <;> simp [load_product]
  · rintro j rfl hj
    cases j with
    | null => exact absurd rfl hj
    | bool b => rfl
    | num q => rfl
    | str s => rfl
    | arr xs => rfl
    | obj fields => rfl

/-- Witness for the amended C8 at concrete stores: an absent file, an
undecodable file, a file decoding to JSON `null`, and a file holding a
well-formed record. -/
theorem load_product_spec_witness :
    load_product none = none ∧
    load_product (some none) = none ∧
    load_product (some (some Json.null)) = none ∧
    load_product (some (some (Json.obj [("name", Json.str "cream"),
        ("initial_weight", Json.num 100), ("threshold_percent", Json.num 30)]))) =
      some (Json.obj [("name", Json.str "cream"), ("initial_weight", Json.num 100),
        ("threshold_percent", Json.num 30)]) ∧
    specWellFormedRecord (Json.obj [("name", Json.str "cream"),
      ("initial_weight", Json.num 100), ("threshold_percent", Json.num 30)]) = true := by
  refine ⟨(load_product_spec none).1.2 (Or.inl rfl),
    (load_product_spec (some none)).1.2 (Or.inr (Or.inl rfl)),
    (load_product_spec (some (some Json.null))).1.2 (Or.inr (Or.inr rfl)),
    (load_product_spec _).2 _ rfl (by intro h; exact Json.noConfusion h), by decide⟩

/-- C9 fails as stated: the web layer validates nothing, so registration
with an empty name, threshold `150` and no sensor persists
`{name := "", initial_weight := 0, threshold_percent := 150}`, violating
every clause of the data-model constraint; a threshold update likewise
writes `150` unchecked. -/
theorem register_no_validation :
    register "" 150 false [] =
      { name := "", initial_weight := 0, threshold_percent := 150 } ∧
    ¬ recordWellFormed (register "" 150 false []) ∧
    update_threshold
        (some { name := "cream", initial_weight := 100, threshold_percent := 30 })
        150 =
      some { name := "cream", initial_weight := 100, threshold_percent := 150 } :=
  ⟨rfl, by decide, rfl⟩

/-- C9 (amended): registration and threshold update store the supplied name
and integer threshold verbatim, with no clamping and no validation; the
data-model constraint (non-empty name, positive initial weight, threshold
in `[0, 100]`) holds for the written record exactly when the inputs passed
through already satisfy it and the quick sample is positive. -/
theorem register_fields_spec (name : String) (t : ℤ) (ser : Bool)
    (reads : List ReadAttempt) (p : ProductRecord) :
    (register name t ser reads).name = name ∧
    (register name t ser reads).threshold_percent = t ∧
    (register name t ser reads).initial_weight = get_quick_weight ser reads ∧
    (update_threshold (some p) t).map ProductRecord.threshold_percent = some t ∧
    (name ≠ "" → 0 ≤ t → t ≤ 100 → 0 < get_quick_weight ser reads →
      recordWellFormed (register name t ser reads)) :=
  ⟨rfl, rfl, rfl, rfl, fun hn h0 h1 hw => ⟨hn, hw, h0, h1⟩⟩

/-- Witness for the amended C9 at a valid registration: name `"cream"`,
threshold `50`, the sensor line reading `85.3`. -/
theorem register_fields_spec_witness :
    register "cream" 50 true [some (853 / 10)] =
      { name := "cream", initial_weight := 853 / 10, threshold_percent := 50 } ∧
    recordWellFormed (register "cream" 50 true [some (853 / 10)]) := by
  have h := register_fields_spec "cream" 50 true [some (853 / 10)]
    { name := "cream", initial_weight := 100, threshold_percent := 30 }
  have hq : get_quick_weight true [some (853 / 10)] = 853 / 10 := by
    norm_num [get_quick_weight, quickLoop, round2, round_eq]
  constructor
  · simp [register, hq]
  · exact h.2.2.2.2 (by simp) (by norm_num) (by norm_num) (by rw [hq]; norm_num)

/-- C10: registration stores the quick-sample result unconditionally: with
the sensor absent, or with no strictly positive parse before the timeout,
the persisted record's `initial_weight` is `0.0`, and alert evaluation on
such a record yields threshold weight `0.0` and no alert for every
non-negative current weight. -/
theorem register_zero_weight (name : String) (t : ℤ) (reads : List ReadAttempt) :
    (register name t false reads).initial_weight = 0 ∧
    (quickAccepted reads = none →
      (register name t true reads).initial_weight = 0) ∧
    (∀ w : ℚ, 0 ≤ w → evaluate (some (register name t false reads)) w = (false, 0)) ∧
    (∀ w : ℚ, 0 ≤ w → quickAccepted reads = none →
      evaluate (some (register name t true reads)) w = (false, 0)) := by
  have hz : quickAccepted reads = none → get_quick_weight true reads = 0 := by
    intro h
    rw [get_quick_weight]
    simp [quickLoop_eq_quickAccepted, h]
  refine ⟨rfl, fun h => hz h, fun w hw => ?_, fun w hw h => ?_⟩
  · have hneg : ¬ w < 0 := not_lt.2 hw
    simp [evaluate, register, get_quick_weight, hneg]
  · have hneg : ¬ w < 0 := not_lt.2 hw
    simp [evaluate, register, hz h, hneg]

/-- Witness for C10: registering `"cream"` at threshold `30` with the
sensor absent yields initial weight `0`, and the current weights `0` and
`25` raise no alert against threshold weight `0`. -/
theorem register_zero_weight_witness :
    (register "cream" 30 false [some 100]).initial_weight = 0 ∧
    (register "cream" 30 true [none, some 0]).initial_weight = 0 ∧
    evaluate (some (register "cream" 30 false [some 100])) 0 = (false, 0) ∧
    evaluate (some (register "cream" 30 false [some 100])) 25 = (false, 0) := by
  have h := register_zero_weight "cream" 30 [some 100]
  refine ⟨h.1, ?_, h.2.2.1 0 le_rfl, h.2.2.1 25 (by norm_num)⟩
  exact (register_zero_weight "cream" 30 [none, some 0]).2.1 (by decide)

end WeightOfBeauty
